import Mathlib

/-!
Formal model of the THOR chatbot engine (ai_engine.py, thor_clone_manager.py).

The Python code is embedded shallowly: pure methods become Lean functions on
ASCII strings, the database session of the clone manager becomes an explicit
list of records, and exceptions become Option / Except results.  Randomness
(random.choice) is modelled by passing the chosen index as an argument, and
the two external LLM providers are modelled by their observable outcome
(absent, returned a value, raised an error).  All string functions model
Python string semantics on ASCII text, which is the alphabet of every keyword
list and template in the source.
-/

set_option maxRecDepth 40000

namespace Thor

/-- Opening brace character, written via its code point. -/
def lbrace : Char := Char.ofNat 123

/-- Closing brace character, written via its code point. -/
def rbrace : Char := Char.ofNat 125

/-- ASCII lower-casing of one character, as Python str.lower does on ASCII. -/
def asciiLower (c : Char) : Char :=
  if 65 ≤ c.toNat ∧ c.toNat ≤ 90 then Char.ofNat (c.toNat + 32) else c

/-- ASCII upper-casing of one character, as Python str.upper does on ASCII. -/
def asciiUpper (c : Char) : Char :=
  if 97 ≤ c.toNat ∧ c.toNat ≤ 122 then Char.ofNat (c.toNat - 32) else c

/-- Model of Python str.lower on ASCII text. -/
def lowerStr (s : String) : String :=
  String.mk (s.toList.map asciiLower)

/-- Python whitespace characters (the ASCII part of str.split and regex \s):
tab, newline, vertical tab, form feed, carriage return, space. -/
def isPyWs (c : Char) : Bool :=
  c.toNat == 9 || c.toNat == 10 || c.toNat == 11 || c.toNat == 12 ||
  c.toNat == 13 || c.toNat == 32

/-- Regex word character (the ASCII part of \w): letter, digit or underscore. -/
def isWordChar (c : Char) : Bool :=
  c.isAlpha || c.isDigit || c == '_'

/-- Prefix test on character lists. -/
def isPre : List Char → List Char → Bool
  | [], _ => true
  | _ :: _, [] => false
  | a :: as, b :: bs => a == b && isPre as bs

/-- Substring test on character lists: needle occurs somewhere in hay. -/
def hasSub (needle : List Char) : List Char → Bool
  | [] => isPre needle []
  | c :: rest => isPre needle (c :: rest) || hasSub needle rest

/-- Model of the Python operator needle in hay on strings. -/
def pyIn (needle hay : String) : Bool :=
  hasSub needle.toList hay.toList

/-- Helper for pySplitWs, accumulating the current word in reverse. -/
def splitWsAux : List Char → List Char → List String
  | [], acc => if acc.isEmpty then [] else [String.mk acc.reverse]
  | c :: rest, acc =>
    if isPyWs c then
      if acc.isEmpty then splitWsAux rest []
      else String.mk acc.reverse :: splitWsAux rest []
    else splitWsAux rest (c :: acc)

/-- Model of Python str.split() with no argument: split on runs of
whitespace, discarding empty pieces. -/
def pySplitWs (s : String) : List String :=
  splitWsAux s.toList []

/-- Model of re.sub applied with the pattern that deletes every character
that is neither a word character nor whitespace. -/
def stripPunct (s : String) : String :=
  String.mk (s.toList.filter (fun c => isWordChar c || isPyWs c))

/-- Helper collecting maximal runs of word characters, for the regex
findall with pattern of word runs. -/
def wordRunsAux : List Char → List Char → List (List Char)
  | [], acc => if acc.isEmpty then [] else [acc.reverse]
  | c :: rest, acc =>
    if isWordChar c then wordRunsAux rest (c :: acc)
    else if acc.isEmpty then wordRunsAux rest []
    else acc.reverse :: wordRunsAux rest []

/-- Model of re.findall with the pattern matching word runs of length at
least five between word boundaries: the maximal word-character runs of
length at least five, in order. -/
def topicsOf (s : String) : List String :=
  (wordRunsAux s.toList []).filterMap
    (fun r => if 5 ≤ r.length then some (String.mk r) else none)

/-- Model of Python str.capitalize on ASCII: first character upper-cased,
the rest lower-cased. -/
def pyCapitalize (s : String) : String :=
  match s.toList with
  | [] => ""
  | c :: rest => String.mk (asciiUpper c :: rest.map asciiLower)

/-- Removal of every occurrence of the text THOR, left to right and
non-overlapping, as Python str.replace with an empty replacement does. -/
def removeAllTHOR : List Char → List Char
  | 'T' :: 'H' :: 'O' :: 'R' :: rest => removeAllTHOR rest
  | c :: rest => c :: removeAllTHOR rest
  | [] => []

/-- Digits of a decimal literal folded into a number; none when a character
is not a digit. -/
def digitsToNat : List Char → Option Nat → Option Nat
  | [], acc => acc
  | c :: rest, acc =>
    if c.isDigit then
      digitsToNat rest (some ((acc.getD 0) * 10 + (c.toNat - 48)))
    else none

/-- Model of the Python int() constructor on ASCII text: optional
surrounding whitespace, an optional sign, then one or more decimal digits;
anything else raises, modelled as none.  (Python additionally accepts
underscore digit separators and non-ASCII digits; neither occurs in this
code base, whose numbers come from names of the form THOR followed by
decimal digits.) -/
def pyInt (s : String) : Option Int :=
  let cs := ((s.toList.dropWhile isPyWs).reverse.dropWhile isPyWs).reverse
  match cs with
  | '+' :: ds => (digitsToNat ds none).map Int.ofNat
  | '-' :: ds => (digitsToNat ds none).map (fun n => -(Int.ofNat n))
  | ds => (digitsToNat ds none).map Int.ofNat

/-- Core scanner of pyFormat1.  The Boolean records whether the single
positional argument has already been consumed by an automatically numbered
replacement field. -/
def pyFormatAux (arg : List Char) : List Char → Bool → Option (List Char)
  | [], _ => some []
  | c :: rest, used =>
    if c == lbrace then
      match rest with
      | d :: rest2 =>
        if d == lbrace then (pyFormatAux arg rest2 used).map (lbrace :: ·)
        else if d == rbrace then
          if used then none
          else (pyFormatAux arg rest2 true).map (arg ++ ·)
        else none
      | [] => none
    else if c == rbrace then
      match rest with
      | d :: rest2 =>
        if d == rbrace then (pyFormatAux arg rest2 used).map (rbrace :: ·)
        else none
      | [] => none
    else (pyFormatAux arg rest used).map (c :: ·)

/-- Model of Python str.format called with exactly one positional argument
and no keyword arguments, the only way it is called in ai_engine.py.  A
doubled brace is an escaped literal brace; an empty replacement field
consumes the argument and raises IndexError when used twice; every other
replacement field raises (KeyError for a named field, ValueError for a
stray or malformed brace) because no keyword arguments are supplied, and
none of the template strings in the source contains an explicit positional
index or a conversion or format specification with an empty field name.
A raised exception is modelled as none. -/
def pyFormat1 (tmpl arg : String) : Option String :=
  (pyFormatAux arg.toList tmpl.toList false).map String.mk

/-! Fixed string data of AIEngine, transcribed byte for byte from
ai_engine.py (braces, apostrophes and backticks written as escapes). -/

/-- Response templates for the greeting intent (self.responses). -/
def pool_greeting : List String := [
  "Hello! I\x27m THOR. How can I assist you today?",
  "Hi there! THOR AI at your service. What can I help you with?",
  "Greetings! This is THOR. How may I be of service?",
  "Welcome to THOR AI! What would you like to know?"]

/-- Response templates for the farewell intent. -/
def pool_farewell : List String := [
  "Goodbye! Feel free to return if you have more questions.",
  "Farewell! Have a great day!",
  "Until next time! Take care.",
  "Bye for now! Let me know if you need anything else."]

/-- Response templates for the question intent. -/
def pool_question : List String := [
  "That\x27s an interesting question. From my analysis, ",
  "Based on my knowledge, ",
  "According to my information, ",
  "From what I understand, "]

/-- Response templates for the coding intent. -/
def pool_coding : List String := [
  "Here\x27s how you might approach coding this: ",
  "In Python, you could implement this using: ",
  "The programming solution for this would be: ",
  "Here\x27s a code snippet that might help: "]

/-- Response templates for the learning intent. -/
def pool_learning : List String := [
  "I\x27d be happy to help you learn about this. Let\x27s start with the basics: ",
  "As your learning assistant, I can explain that ",
  "Here\x27s a step-by-step approach to understanding this concept: ",
  "This is a great topic to explore. The key points to understand are: "]

/-- Response templates for the growth intent. -/
def pool_growth : List String := [
  "For personal growth in this area, I recommend starting with: ",
  "To develop this skill, here\x27s what THOR suggests: ",
  "I can help you improve in this area. First, consider: ",
  "Personal development is a journey. Here\x27s how you might approach this: "]

/-- Response templates for the testing intent. -/
def pool_testing : List String := [
  "Let\x27s test this idea. We could approach it by: ",
  "To validate this concept, THOR suggests: ",
  "Here\x27s a framework for testing your hypothesis: ",
  "Experimentation is key to learning. You might try: "]

/-- Fallback response templates. -/
def pool_fallback : List String := [
  "As THOR, I\x27m still learning about that topic. Can you tell me more?",
  "That\x27s an interesting request. Let me think about how THOR can help with that.",
  "THOR is processing that request. Could you provide more details?",
  "I\x27m THOR, designed to help with various tasks. Can you be more specific about what you need?"]

/-- The responses dictionary of AIEngine, in insertion order. -/
def responsesMap : List (String × List String) := [
  ("greeting", pool_greeting), ("farewell", pool_farewell),
  ("question", pool_question), ("coding", pool_coding),
  ("learning", pool_learning), ("growth", pool_growth),
  ("testing", pool_testing), ("fallback", pool_fallback)]

/-- Intent keywords for greeting. -/
def greetingKeywords : List String := ["hello", "hi", "hey", "greetings"]

/-- Intent keywords for farewell. -/
def farewellKeywords : List String := ["bye", "goodbye", "farewell", "see you"]

/-- Intent keywords for question (a literal question mark also fires). -/
def questionKeywords : List String := ["what", "why", "how", "when", "where", "who"]

/-- Intent keywords for coding. -/
def codingKeywords : List String := ["code", "program", "function", "class", "python", "javascript"]

/-- Intent keywords for learning. -/
def learningKeywords : List String := ["learn", "study", "understand", "concept", "explain", "tutorial", "guide"]

/-- Intent keywords for growth. -/
def growthKeywords : List String := ["personal", "growth", "improve", "better", "develop", "skill", "progress"]

/-- Intent keywords for testing. -/
def testingKeywords : List String := ["test", "try", "experiment", "check", "validate", "verify", "simulation"]

/-- The sensitive operations list of check permissions: keyword and reason. -/
def sensitiveOperations : List (String × String) := [
  ("disable safety", "disabling all safety features (only applies to critical systems)"),
  ("turn off ethics", "disabling all ethics checks (only applies to critical systems)"),
  ("hack", "attempting potentially harmful operations on external systems")]

/-- The fixed refusal sentence returned by the content filter. -/
def refusalText : String :=
  "I apologize, but I cannot assist with that request as it appears to involve potentially harmful or unethical actions."

/-- Code block appended for coding prompts that mention python. -/
def snippetPython : String :=
  "\n\x60\x60\x60python\n# Example Python code\ndef example_function():\n    print(\x27Hello, World!\x27)\n    return True\n\n# Call the function\nresult = example_function()\n\x60\x60\x60"

/-- Code block appended for coding prompts that mention javascript. -/
def snippetJavascript : String :=
  "\n\x60\x60\x60javascript\n// Example JavaScript code\nfunction exampleFunction() \x7b\n    console.log(\x27Hello, World!\x27);\n    return true;\n\x7d\n\n// Call the function\nconst result = exampleFunction();\n\x60\x60\x60"

/-- Coding reply when no supported language is named. -/
def codingAskLanguage : String :=
  "I\x27d need to know which programming language you\x27re interested in. Could you specify?"

/-- Question reply when the prompt has three or fewer words. -/
def questionNoContext : String :=
  "that\x27s a topic I\x27m still learning about. Could you provide more context?"

/-- Learning reply suffix after the capitalized main topic. -/
def learningTopicSuffix : String :=
  " is a fascinating subject to learn about. I recommend starting with understanding the core principles, then practicing with real examples, and finally teaching others to solidify your knowledge."

/-- Learning reply when the prompt has no word of length at least five. -/
def learningNoTopic : String :=
  "Learning is most effective when you have a specific goal in mind. What particular topic or skill would you like to explore?"

/-- Growth reply suffix. -/
def growthAdvice : String :=
  "Setting clear goals, consistent practice, seeking feedback, and reflecting on your progress. Would you like me to elaborate on any of these aspects of personal growth?"

/-- Testing reply suffix. -/
def testingAdvice : String :=
  "Start with a clear hypothesis, design a simple experiment, gather data, analyze results, and refine your approach based on what you learn. What concept would you like to test specifically?"

/-- General reply first piece for prompts of more than five words. -/
def generalInterested : String := "I understand you\x27re interested in "

/-- General reply last piece for prompts of more than five words. -/
def generalSuffix : String :=
  ". Could you tell me more specifically what you\x27d like to know about this?"

/-! The intent classifier, permission checker, content filter and template
responder of AIEngine. -/

/-- True when some keyword of the list occurs in the text. -/
def containsAny (kws : List String) (t : String) : Bool :=
  kws.any (fun w => pyIn w t)

/-- Model of AIEngine analyze intent: lowercase the text and test the
keyword sets in the fixed priority order, first match winning; a literal
question mark also fires the question branch; no match yields general. -/
def analyzeIntent (text : String) : String :=
  let tl := lowerStr text
  if containsAny greetingKeywords tl then "greeting"
  else if containsAny farewellKeywords tl then "farewell"
  else if pyIn "?" text || containsAny questionKeywords tl then "question"
  else if containsAny codingKeywords tl then "coding"
  else if containsAny learningKeywords tl then "learning"
  else if containsAny growthKeywords tl then "growth"
  else if containsAny testingKeywords tl then "testing"
  else "general"

/-- The loop of check permissions: first pair whose keyword occurs in the
lowercased prompt. -/
def firstSensitive : List (String × String) → String → Option (String × String)
  | [], _ => none
  | kr :: rest, pl => if pyIn kr.1 pl then some kr else firstSensitive rest pl

/-- Model of AIEngine check permissions.  The settings argument of the
Python method is never consulted, so it is omitted. -/
def checkPermissions (prompt : String) : Bool × String :=
  match firstSensitive sensitiveOperations (lowerStr prompt) with
  | some kr => (true, kr.2)
  | none => (false, "")

/-- Match one alternation group of plain words at the head of the text:
returns the rest of the text after the first alternative that is a prefix. -/
def matchWordAlt (alts : List String) (cs : List Char) : Option (List Char) :=
  match alts.find? (fun w => isPre w.toList cs) with
  | some w => some (cs.drop w.toList.length)
  | none => none

/-- Match a sequence of alternation groups separated by one or more
whitespace characters, anchored at the head of the text.  The groups are
plain lowercase words with pairwise distinct prefixes, so the greedy
whitespace consumption of the regex engine is exact here. -/
def matchSeqGroups : List (List String) → List Char → Bool
  | [], _ => true
  | [g], cs => (matchWordAlt g cs).isSome
  | g :: g2 :: gs, cs =>
    match matchWordAlt g cs with
    | none => false
    | some cs1 =>
      match cs1 with
      | c :: cs2 =>
        if isPyWs c then matchSeqGroups (g2 :: gs) (cs2.dropWhile isPyWs)
        else false
      | [] => false

/-- Model of re.search for the word-sequence patterns: try every start
position. -/
def searchSeqGroups (gs : List (List String)) : List Char → Bool
  | [] => matchSeqGroups gs []
  | c :: rest => matchSeqGroups gs (c :: rest) || searchSeqGroups gs rest

/-- True when the text matches one of the two unsafe patterns of the
content filter (case-insensitively, modelled by lowercasing the text). -/
def unsafeHit (text : String) : Bool :=
  let tl := (lowerStr text).toList
  searchSeqGroups [["launch", "execute"], ["malware", "virus", "ransomware"]] tl ||
  searchSeqGroups [["attack", "compromise"], ["critical", "government", "protected"],
                   ["system", "server", "network"]] tl

/-- Model of AIEngine filter unsafe content: wholesale replacement by the
refusal sentence on any pattern match, the text unchanged otherwise. -/
def filterUnsafeContent (text : String) : String :=
  if unsafeHit text then refusalText else text

/-- One entry of the conversation history (the Message shape consumed by
the engine). -/
structure HistEntry where
  is_user : Bool
  content : String
deriving DecidableEq, Repr

/-- Template pool for an intent: the responses dictionary lookup with the
fallback pool as default. -/
def choosePool (intent : String) : List String :=
  (responsesMap.lookup intent).getD pool_fallback

/-- Model of random.choice on a fixed nonempty pool: the randomness is an
externally supplied index, reduced modulo the pool size. -/
def pick (l : List String) (k : Nat) : String :=
  l.getD (k % l.length) ""

/-- Model of AIEngine generate text response.  The two uses of
random.choice are modelled by the indices k (template choice) and k2
(fallback choice in the general branch).  The history argument is kept to
mirror the Python signature; the source never reads it. -/
def genTextResponse (prompt intent : String) (hist : List HistEntry) (k k2 : Nat) : String :=
  let template := pick (choosePool intent) k
  if intent == "greeting" then template
  else if intent == "farewell" then template
  else if intent == "question" then
    let questionWords := pySplitWs (stripPunct prompt)
    if 3 < questionWords.length then
      let keywords := questionWords.filter (fun w => 3 < w.length)
      template ++ "it appears that " ++ String.intercalate " " (keywords.take 3) ++
        " is related to " ++
        String.intercalate " "
          (if 2 < keywords.length then keywords.drop (keywords.length - 2) else keywords) ++
        ". Would you like more information on this topic?"
    else template ++ questionNoContext
  else if intent == "coding" then
    if pyIn "python" (lowerStr prompt) then template ++ snippetPython
    else if pyIn "javascript" (lowerStr prompt) then template ++ snippetJavascript
    else template ++ codingAskLanguage
  else if intent == "learning" then
    match topicsOf (lowerStr prompt) with
    | t :: _ => template ++ pyCapitalize t ++ learningTopicSuffix
    | [] => template ++ learningNoTopic
  else if intent == "growth" then template ++ growthAdvice
  else if intent == "testing" then template ++ testingAdvice
  else
    let words := pySplitWs prompt
    if 5 < words.length then
      generalInterested ++ String.intercalate " " ((words.drop 1).take 3) ++ generalSuffix
    else pick pool_fallback k2

/-- Settings consulted by generate response; the Python default dictionary
has all three flags true. -/
structure Settings where
  content_filter_enabled : Bool
  ethics_check_enabled : Bool
  permission_required : Bool
deriving DecidableEq, Repr

/-- The response envelope of generate response.  Keys absent from a branch
of the Python dictionary are modelled as none. -/
structure RespEnvelope where
  text : String
  status : String
  model : Option String
  requires_permission : Option Bool
  permission_reason : Option String
deriving DecidableEq, Repr

/-- The permission-required envelope text. -/
def permissionText (reason : String) : String :=
  "This operation requires permission: " ++ reason ++ ". Please confirm to proceed."

/-- The body of the try block of generate response: permission check,
intent analysis, template response, optional content filtering. -/
def generateResponseTry (prompt : String) (hist : List HistEntry) (settings : Settings)
    (k k2 : Nat) : RespEnvelope :=
  let rp := checkPermissions prompt
  if rp.1 && settings.permission_required then
    { text := permissionText rp.2, status := "permission_required", model := none,
      requires_permission := some true, permission_reason := some rp.2 }
  else
    let intent := analyzeIntent prompt
    let responseText := genTextResponse prompt intent hist k k2
    let responseText :=
      if settings.content_filter_enabled then filterUnsafeContent responseText
      else responseText
    { text := responseText, status := "success", model := some "THOR AI Engine",
      requires_permission := none, permission_reason := none }

/-- The top-level except handler of generate response: a raised exception
with message msg becomes the apology envelope; a normal result is passed
through. -/
def handleGenerateResponse (core : Except String RespEnvelope) : RespEnvelope :=
  match core with
  | Except.ok env => env
  | Except.error msg =>
    { text := "I\x27m sorry, I encountered an error: " ++ msg, status := "error",
      model := none, requires_permission := none, permission_reason := none }

/-- Model of AIEngine generate response: the try body wrapped in the
top-level handler.  The body is total, so it enters the handler as a
normal result. -/
def generateResponse (prompt : String) (hist : List HistEntry) (settings : Settings)
    (k k2 : Nat) : RespEnvelope :=
  handleGenerateResponse (Except.ok (generateResponseTry prompt hist settings k k2))

/-! The advanced code-generation capability: fallback templates and the
provider cascade of AIEngine generate code. -/

/-- Python fallback template, default category. -/
def tmpl_python_default : String :=
  "# Simple Python program\n\ndef main():\n    print(\"Hello, World!\")\n    # TODO: Implement functionality based on description\n    print(\"Description: \x7b\x7d\")\n\nif __name__ == \"__main__\":\n    main()"

/-- Python fallback template, web category. -/
def tmpl_python_web : String :=
  "from flask import Flask, render_template, request\n\napp = Flask(__name__)\n\n@app.route(\"/\")\ndef home():\n    return \"Hello, World!\"\n\nif __name__ == \"__main__\":\n    app.run(host=\"0.0.0.0\", port=5000, debug=True)"

/-- Python fallback template, api category. -/
def tmpl_python_api : String :=
  "from flask import Flask, jsonify, request\n\napp = Flask(__name__)\n\n@app.route(\"/api/data\", methods=[\"GET\"])\ndef get_data():\n    return jsonify(\x7b\"message\": \"Data endpoint\"\x7d)\n\n@app.route(\"/api/data\", methods=[\"POST\"])\ndef post_data():\n    data = request.json\n    return jsonify(\x7b\"received\": data\x7d)\n\nif __name__ == \"__main__\":\n    app.run(host=\"0.0.0.0\", port=5000, debug=True)"

/-- Python fallback template, data category. -/
def tmpl_python_data : String :=
  "import pandas as pd\nimport matplotlib.pyplot as plt\n\n# Load data (replace with your data source)\ndata = \x7b\"x\": [1, 2, 3, 4, 5], \"y\": [10, 20, 25, 30, 35]\x7d\ndf = pd.DataFrame(data)\n\n# Analyze data\nprint(\"Data Summary:\")\nprint(df.describe())\n\n# Visualize data\nplt.figure(figsize=(10, 6))\nplt.plot(df[\"x\"], df[\"y\"], marker=\"o\")\nplt.title(\"Data Visualization\")\nplt.xlabel(\"X axis\")\nplt.ylabel(\"Y axis\")\nplt.grid(True)\nplt.show()"

/-- Python fallback template, ml category. -/
def tmpl_python_ml : String :=
  "import numpy as np\nfrom sklearn.model_selection import train_test_split\nfrom sklearn.linear_model import LinearRegression\nfrom sklearn.metrics import mean_squared_error\n\n# Generate sample data\nX = np.random.rand(100, 1) * 10\ny = 2 * X + 1 + np.random.randn(100, 1)\n\n# Split data\nX_train, X_test, y_train, y_test = train_test_split(X, y, test_size=0.2, random_state=42)\n\n# Train model\nmodel = LinearRegression()\nmodel.fit(X_train, y_train)\n\n# Make predictions\ny_pred = model.predict(X_test)\n\n# Evaluate model\nmse = mean_squared_error(y_test, y_pred)\nprint(f\"Mean Squared Error: \x7bmse:.4f\x7d\")\nprint(f\"Coefficient: \x7bmodel.coef_[0][0]:.4f\x7d\")\nprint(f\"Intercept: \x7bmodel.intercept_[0]:.4f\x7d\")"

/-- Javascript fallback template, default category. -/
def tmpl_javascript_default : String :=
  "// Simple JavaScript program\n\nfunction main() \x7b\n    console.log(\"Hello, World!\");\n    // TODO: Implement functionality based on description\n    console.log(\"Description: \x7b\x7d\");\n\x7d\n\nmain();"

/-- Javascript fallback template, web category. -/
def tmpl_javascript_web : String :=
  "// Simple web app\n\ndocument.addEventListener(\"DOMContentLoaded\", function() \x7b\n    const app = document.getElementById(\"app\");\n    \n    if (app) \x7b\n        app.innerHTML = \x60\n            <div class=\"container mt-5\">\n                <h1>Hello, World!</h1>\n                <p>Welcome to my application</p>\n                <button id=\"actionBtn\" class=\"btn btn-primary\">Click Me</button>\n            </div>\n        \x60;\n        \n        document.getElementById(\"actionBtn\").addEventListener(\"click\", function() \x7b\n            alert(\"Button clicked!\");\n        \x7d);\n    \x7d\n\x7d);"

/-- Javascript fallback template, api category. -/
def tmpl_javascript_api : String :=
  "// API client example\n\nasync function fetchData() \x7b\n    try \x7b\n        const response = await fetch(\"https://api.example.com/data\");\n        \n        if (!response.ok) \x7b\n            throw new Error(\x60HTTP error! Status: $\x7bresponse.status\x7d\x60);\n        \x7d\n        \n        const data = await response.json();\n        console.log(\"Data received:\", data);\n        return data;\n    \x7d catch (error) \x7b\n        console.error(\"Error fetching data:\", error);\n    \x7d\n\x7d\n\n// Example usage\nfetchData().then(data => \x7b\n    // Process data here\n\x7d);"

/-- Javascript fallback template, react category. -/
def tmpl_javascript_react : String :=
  "import React, \x7b useState, useEffect \x7d from \"react\";\n\nfunction App() \x7b\n    const [data, setData] = useState([]);\n    const [loading, setLoading] = useState(true);\n    \n    useEffect(() => \x7b\n        // Fetch data when component mounts\n        fetch(\"https://api.example.com/data\")\n            .then(response => response.json())\n            .then(data => \x7b\n                setData(data);\n                setLoading(false);\n            \x7d)\n            .catch(error => \x7b\n                console.error(\"Error fetching data:\", error);\n                setLoading(false);\n            \x7d);\n    \x7d, []);\n    \n    return (\n        <div className=\"App\">\n            <h1>My React App</h1>\n            \x7bloading ? (\n                <p>Loading data...</p>\n            ) : (\n                <ul>\n                    \x7bdata.map(item => (\n                        <li key=\x7bitem.id\x7d>\x7bitem.name\x7d</li>\n                    ))\x7d\n                </ul>\n            )\x7d\n        </div>\n    );\n\x7d\n\nexport default App;"

/-- Java fallback template, default category. -/
def tmpl_java_default : String :=
  "public class Main \x7b\n    public static void main(String[] args) \x7b\n        System.out.println(\"Hello, World!\");\n        // TODO: Implement functionality based on description\n        System.out.println(\"Description: \x7b\x7d\");\n    \x7d\n\x7d"

/-- Cpp fallback template, default category. -/
def tmpl_cpp_default : String :=
  "#include <iostream>\n\nint main() \x7b\n    std::cout << \"Hello, World!\" << std::endl;\n    // TODO: Implement functionality based on description\n    std::cout << \"Description: \x7b\x7d\" << std::endl;\n    return 0;\n\x7d"

/-- Csharp fallback template, default category. -/
def tmpl_csharp_default : String :=
  "using System;\n\nclass Program \x7b\n    static void Main(string[] args) \x7b\n        Console.WriteLine(\"Hello, World!\");\n        // TODO: Implement functionality based on description\n        Console.WriteLine(\"Description: \x7b\x7d\");\n    \x7d\n\x7d"

/-- The category keyword mapping of the fallback generator, in dictionary
insertion order. -/
def categoryKeywords : List (String × List String) := [
  ("web", ["web", "website", "html", "css", "frontend", "app"]),
  ("api", ["api", "rest", "endpoint", "server", "request", "response"]),
  ("data", ["data", "processing", "csv", "pandas", "analysis", "plot", "graph"]),
  ("ml", ["machine learning", "ml", "ai", "model", "train", "predict"]),
  ("react", ["react", "component", "jsx", "frontend framework"])]

/-- The nested templates dictionary of the fallback generator. -/
def languageTemplates : List (String × List (String × String)) := [
  ("python", [("default", tmpl_python_default), ("web", tmpl_python_web),
              ("api", tmpl_python_api), ("data", tmpl_python_data),
              ("ml", tmpl_python_ml)]),
  ("javascript", [("default", tmpl_javascript_default), ("web", tmpl_javascript_web),
                  ("api", tmpl_javascript_api), ("react", tmpl_javascript_react)]),
  ("java", [("default", tmpl_java_default)]),
  ("cpp", [("default", tmpl_cpp_default)]),
  ("csharp", [("default", tmpl_csharp_default)])]

/-- The note string of the fallback code envelope. -/
def fallbackCodeNote : String :=
  "Generated using THOR\x27s basic templates (OpenAI integration unavailable)"

/-- Envelope returned by the code-generation capability; the note and
provider keys are absent from some branches, modelled as none. -/
structure CodeEnvelope where
  status : String
  language : String
  code : String
  provider : Option String
  note : Option String
deriving DecidableEq, Repr

/-- First category whose keyword list has a hit in the lowercased
description, default otherwise. -/
def fallbackCategory (descriptionLower : String) : String :=
  match categoryKeywords.find? (fun kc => kc.2.any (fun w => pyIn w descriptionLower)) with
  | some kc => kc.1
  | none => "default"

/-- Model of AIEngine generate fallback code.  The str.format call on the
selected template is the only fallible step; none models the exception it
raises on templates that contain literal braces. -/
def fallbackCode (description language : String) : Option CodeEnvelope :=
  let category := fallbackCategory (lowerStr description)
  let langTs := (languageTemplates.lookup (lowerStr language)).getD
    [("default", tmpl_python_default), ("web", tmpl_python_web),
     ("api", tmpl_python_api), ("data", tmpl_python_data), ("ml", tmpl_python_ml)]
  let template := (langTs.lookup category).getD ((langTs.lookup "default").getD "")
  match pyFormat1 template description with
  | none => none
  | some code =>
    some { status := "success", language := language, code := code,
           provider := none, note := some fallbackCodeNote }

/-- Observable outcome of the OpenAI-backed provider at one call: not
configured, returned a code string, or raised. -/
inductive POutcome
  | absent
  | ok (code : String)
  | raises
deriving DecidableEq, Repr

/-- Observable outcome of the Anthropic-backed provider at one call: not
configured, returned a dictionary whose optional code key is extracted
with the default marker comment, or raised. -/
inductive AOutcome
  | absent
  | ok (code : Option String)
  | raises
deriving DecidableEq, Repr

/-- The envelope built from an Anthropic result dictionary. -/
def anthropicEnvelope (language : String) (code : Option String) : CodeEnvelope :=
  { status := "success", language := language,
    code := code.getD "# No code generated", provider := some "anthropic", note := none }

/-- Model of AIEngine generate code: the provider cascade.  none models an
exception escaping the call, which can only come from the fallback
generator because both provider calls sit inside try blocks. -/
def generateCode (o : POutcome) (a : AOutcome) (description language : String) :
    Option CodeEnvelope :=
  if o = POutcome.absent ∧ a = AOutcome.absent then fallbackCode description language
  else
    match o, a with
    | POutcome.ok code, _ =>
      some { status := "success", language := language, code := code,
             provider := some "openai", note := none }
    | POutcome.raises, AOutcome.ok c => some (anthropicEnvelope language c)
    | POutcome.raises, _ => fallbackCode description language
    | POutcome.absent, AOutcome.ok c => some (anthropicEnvelope language c)
    | POutcome.absent, _ => fallbackCode description language

/-! The clone manager (thor_clone_manager.py).  The database session is an
explicit list of records; the ThorClone row type is not present under the
sources, so its record shape is taken from the specification. -/

/-- Modelled from the spec: the ThorClone ORM row (imported by the manager
from models.py, where it is absent).  Per the data model section a clone
carries a name generated as THOR plus a number, a base version, a
description, an open-ended capabilities map and an is-active flag; the
integer primary key is the usual autoincrementing row id used by the
manager for ordering. -/
structure CloneRec where
  id : Nat
  clone_name : String
  base_version : String
  description : String
  capabilities : List (String × String)
  is_active : Bool
deriving DecidableEq, Repr

/-- The record returned by ordering on descending id and taking the first:
the record with the greatest id. -/
def highestClone (st : List CloneRec) : Option CloneRec :=
  st.foldl
    (fun acc c =>
      match acc with
      | none => some c
      | some b => if b.id < c.id then some c else some b)
    none

/-- Model of the next clone number: parse the numeric suffix of the
newest clone name after deleting every THOR occurrence, add one; on a
missing record or a parse failure the number is 1 (the except branch). -/
def nextCloneNumber (st : List CloneRec) : Int :=
  match highestClone st with
  | none => 1
  | some c =>
    match pyInt (String.mk (removeAllTHOR c.clone_name.toList)) with
    | some n => n + 1
    | none => 1

/-- Greatest id present in the store (0 when empty), for the
autoincrementing primary key. -/
def maxId (st : List CloneRec) : Nat :=
  st.foldl (fun m c => max m c.id) 0

/-- Model of create clone (committed happy path): a new record named THOR
plus the next number is appended, inactive.  The rollback path on an
exception leaves the store unchanged. -/
def createClone (st : List CloneRec) (base descr : String)
    (caps : List (String × String)) : List CloneRec × CloneRec :=
  let nc : CloneRec :=
    { id := maxId st + 1, clone_name := "THOR" ++ toString (nextCloneNumber st),
      base_version := base, description := descr, capabilities := caps,
      is_active := false }
  (st ++ [nc], nc)

/-- Activate the first record with the given name; the Boolean reports
whether one was found. -/
def setFirstActive : List CloneRec → String → List CloneRec × Bool
  | [], _ => ([], false)
  | c :: rest, name =>
    if c.clone_name == name then ({ c with is_active := true } :: rest, true)
    else
      let r := setFirstActive rest name
      (c :: r.1, r.2)

/-- Model of activate clone: deactivate every record, then activate the
first record with the given name; returns the new session state and the
success flag. -/
def activateClone (st : List CloneRec) (name : String) : List CloneRec × Bool :=
  setFirstActive (st.map (fun c => { c with is_active := false })) name

/-- Model of deactivate all clones. -/
def deactivateAllClones (st : List CloneRec) : List CloneRec × Bool :=
  (st.map (fun c => { c with is_active := false }), true)

/-- The updates dictionary of update clone: optional description and
optional capabilities. -/
structure CloneUpdates where
  description : Option String
  capabilities : Option (List (String × String))
deriving DecidableEq, Repr

/-- Shallow dictionary merge, as Python dict.update: existing keys keep
their position with the new value, new keys are appended in order. -/
def mergeAssoc (old new : List (String × String)) : List (String × String) :=
  old.map (fun kv => match new.lookup kv.1 with
    | some v => (kv.1, v)
    | none => kv) ++
  new.filter (fun kv => (old.lookup kv.1).isNone)

/-- Apply an updates dictionary to one record; the active flag is never
touched. -/
def applyUpdates (u : CloneUpdates) (c : CloneRec) : CloneRec :=
  let c1 := match u.description with
    | some d => { c with description := d }
    | none => c
  match u.capabilities with
  | some caps => { c1 with capabilities := mergeAssoc c1.capabilities caps }
  | none => c1

/-- Modify the first record with the given name; the Boolean reports
whether one was found. -/
def modifyFirst (name : String) (f : CloneRec → CloneRec) :
    List CloneRec → List CloneRec × Bool
  | [] => ([], false)
  | c :: rest =>
    if c.clone_name == name then (f c :: rest, true)
    else
      let r := modifyFirst name f rest
      (c :: r.1, r.2)

/-- Model of update clone: merge the updates into the first record with
the given name; an unknown name leaves the store unchanged and reports
failure. -/
def updateClone (st : List CloneRec) (name : String) (u : CloneUpdates) :
    List CloneRec × Bool :=
  modifyFirst name (applyUpdates u) st

/-- Remove the first record with the given name; the Boolean reports
whether one was found. -/
def removeFirst (name : String) : List CloneRec → List CloneRec × Bool
  | [] => ([], false)
  | c :: rest =>
    if c.clone_name == name then (rest, true)
    else
      let r := removeFirst name rest
      (c :: r.1, r.2)

/-- Model of delete clone. -/
def deleteClone (st : List CloneRec) (name : String) : List CloneRec × Bool :=
  removeFirst name st

/-- Number of active records in a store. -/
def activeCount (st : List CloneRec) : Nat :=
  (st.filter (fun c => c.is_active)).length

/-! Helper lemmas about the clone store. -/

theorem activeCount_cons (c : CloneRec) (st : List CloneRec) :
    activeCount (c :: st) = activeCount st + (if c.is_active then 1 else 0) := by
  by_cases h : c.is_active <;> simp [activeCount, List.filter_cons, h]

theorem activeCount_append (s t : List CloneRec) :
    activeCount (s ++ t) = activeCount s + activeCount t := by
  simp [activeCount, List.filter_append]

theorem allInactive_activeCount (st : List CloneRec)
    (h : ∀ c ∈ st, c.is_active = false) : activeCount st = 0 := by
  induction st with
  | nil => rfl
  | cons c t ih =>
    have hc := h c (by simp)
    rw [activeCount_cons, hc, ih (fun x hx => h x (List.mem_cons_of_mem _ hx))]
    simp

theorem deactivateAll_inactive (st : List CloneRec) :
    ∀ c ∈ st.map (fun c => { c with is_active := false }), c.is_active = false := by
  intro c hc
  simp only [List.mem_map] at hc
  obtain ⟨b, _, rfl⟩ := hc
  rfl

theorem setFirstActive_spec (st : List CloneRec) (name : String)
    (h : ∀ c ∈ st, c.is_active = false) :
    activeCount (setFirstActive st name).1 =
      (if (setFirstActive st name).2 then 1 else 0)
    ∧ (∀ c ∈ (setFirstActive st name).1, c.is_active = true → c.clone_name = name) := by
  induction st with
  | nil => simp [setFirstActive, activeCount]
  | cons c t ih =>
    have hc : c.is_active = false := h c (by simp)
    have ht : ∀ x ∈ t, x.is_active = false :=
      fun x hx => h x (List.mem_cons_of_mem _ hx)
    have iht := ih ht
    cases hn : (c.clone_name == name) with
    | true =>
      have he : setFirstActive (c :: t) name = ({ c with is_active := true } :: t, true) := by
        simp [setFirstActive, hn]
      rw [he]
      constructor
      · rw [activeCount_cons, allInactive_activeCount t ht]
        simp
      · intro x hx hact
        rcases List.mem_cons.mp hx with hx | hx
        · subst hx
          exact eq_of_beq hn
        · exact absurd hact (by simp [ht x hx])
    | false =>
      have he : setFirstActive (c :: t) name =
          (c :: (setFirstActive t name).1, (setFirstActive t name).2) := by
        simp [setFirstActive, hn]
      rw [he]
      constructor
      · rw [activeCount_cons, hc, iht.1]
        simp
      · intro x hx hact
        rcases List.mem_cons.mp hx with hx | hx
        · subst hx
          exact absurd hact (by simp [hc])
        · exact iht.2 x hx hact

theorem modifyFirst_activeCount (name : String) (f : CloneRec → CloneRec)
    (hf : ∀ c, (f c).is_active = c.is_active) (st : List CloneRec) :
    activeCount (modifyFirst name f st).1 = activeCount st := by
  induction st with
  | nil => rfl
  | cons c t ih =>
    simp only [modifyFirst]
    by_cases hn : c.clone_name == name
    · simp [hn, activeCount_cons, hf c]
    · simp [hn, activeCount_cons, ih]

theorem removeFirst_activeCount_le (name : String) (st : List CloneRec) :
    activeCount (removeFirst name st).1 ≤ activeCount st := by
  induction st with
  | nil => exact Nat.le_refl _
  | cons c t ih =>
    cases hn : (c.clone_name == name) with
    | true =>
      have he : removeFirst name (c :: t) = (t, true) := by
        simp [removeFirst, hn]
      rw [he, activeCount_cons]
      exact Nat.le_add_right _ _
    | false =>
      have he : removeFirst name (c :: t) =
          (c :: (removeFirst name t).1, (removeFirst name t).2) := by
        simp [removeFirst, hn]
      rw [he, activeCount_cons, activeCount_cons]
      exact Nat.add_le_add_right ih _

theorem applyUpdates_is_active (u : CloneUpdates) (c : CloneRec) :
    (applyUpdates u c).is_active = c.is_active := by
  unfold applyUpdates
  cases u.description <;> cases u.capabilities <;> rfl

/-- C5: the predicate that at most one clone record is active is preserved
by create, activate, deactivate-all, update and delete, and a successful
activation leaves exactly one active record, bearing the requested name. -/
theorem c5_at_most_one_active :
    ∀ (st : List CloneRec) (base descr name : String)
      (caps : List (String × String)) (u : CloneUpdates),
    activeCount st ≤ 1 →
      activeCount (createClone st base descr caps).1 ≤ 1
      ∧ activeCount (activateClone st name).1 ≤ 1
      ∧ activeCount (deactivateAllClones st).1 ≤ 1
      ∧ activeCount (updateClone st name u).1 ≤ 1
      ∧ activeCount (deleteClone st name).1 ≤ 1
      ∧ ((activateClone st name).2 = true →
          activeCount (activateClone st name).1 = 1
          ∧ ∀ c ∈ (activateClone st name).1, c.is_active = true → c.clone_name = name) := by
  intro st base descr name caps u hst
  have hmap := deactivateAll_inactive st
  have hset := setFirstActive_spec (st.map fun c => { c with is_active := false }) name hmap
  refine ⟨?_, ?_, ?_, ?_, ?_, ?_⟩
  · rw [createClone, activeCount_append, activeCount_cons]
    simpa using hst
  · rw [activateClone, hset.1]
    split <;> omega
  · rw [deactivateAllClones]
    rw [allInactive_activeCount _ hmap]
    omega
  · rw [updateClone, modifyFirst_activeCount name _ (applyUpdates_is_active u) st]
    exact hst
  · rw [deleteClone]
    exact Nat.le_trans (removeFirst_activeCount_le name st) hst
  · intro hfound
    refine ⟨?_, ?_⟩
    · rw [activateClone, hset.1]
      rw [activateClone] at hfound
      simp [hfound]
    · rw [activateClone]
      exact hset.2

/-- Witness for c5_at_most_one_active at a one-record store. -/
theorem c5_at_most_one_active_witness :
    activeCount ([⟨1, "THOR1", "1.0", "d", [], false⟩] : List CloneRec) ≤ 1
    ∧ (activateClone [⟨1, "THOR1", "1.0", "d", [], false⟩] "THOR1").2 = true
    ∧ activeCount (activateClone [⟨1, "THOR1", "1.0", "d", [], false⟩] "THOR1").1 = 1 := by
  have h := c5_at_most_one_active [⟨1, "THOR1", "1.0", "d", [], false⟩]
    "1.0" "d" "THOR1" [] ⟨none, none⟩ (by decide)
  exact ⟨by decide, by decide, (h.2.2.2.2.2 (by decide)).1⟩

/-- C6: the created clone is named THOR followed by one plus the numeric
suffix of the newest existing clone name (1 when the store is empty), and
three creations from an empty store are named THOR1, THOR2, THOR3. -/
theorem c6_sequential_clone_names :
    (∀ (st : List CloneRec) (b d : String) (caps : List (String × String)),
      highestClone st = none → (createClone st b d caps).2.clone_name = "THOR1")
    ∧ (∀ (st : List CloneRec) (b d : String) (caps : List (String × String))
        (r : CloneRec) (k : Int),
      highestClone st = some r →
      pyInt (String.mk (removeAllTHOR r.clone_name.toList)) = some k →
      (createClone st b d caps).2.clone_name = "THOR" ++ toString (k + 1))
    ∧ (∀ (b1 d1 b2 d2 b3 d3 : String) (caps : List (String × String)),
      (createClone [] b1 d1 caps).2.clone_name = "THOR1"
      ∧ (createClone (createClone [] b1 d1 caps).1 b2 d2 caps).2.clone_name = "THOR2"
      ∧ (createClone (createClone (createClone [] b1 d1 caps).1 b2 d2 caps).1
          b3 d3 caps).2.clone_name = "THOR3") := by
  refine ⟨?_, ?_, ?_⟩
  · intro st b d caps h
    simp [createClone, nextCloneNumber, h]
    rfl
  · intro st b d caps r k h hk
    simp only [String.toList] at hk
    simp [createClone, nextCloneNumber, h, hk]
  · intro b1 d1 b2 d2 b3 d3 caps
    exact ⟨rfl, rfl, rfl⟩

/-- Witness for c6_sequential_clone_names on an empty store and on a store
holding THOR1. -/
theorem c6_sequential_clone_names_witness :
    (createClone [] "1.0" "base" []).2.clone_name = "THOR1"
    ∧ (createClone [⟨1, "THOR1", "1.0", "d", [], false⟩] "1.0" "d" []).2.clone_name = "THOR2" := by
  refine ⟨c6_sequential_clone_names.1 [] "1.0" "base" [] rfl, ?_⟩
  have h := c6_sequential_clone_names.2.1 [⟨1, "THOR1", "1.0", "d", [], false⟩]
    "1.0" "d" [] ⟨1, "THOR1", "1.0", "d", [], false⟩ 1 rfl rfl
  simpa using h

/-- C1: with no provider configured, generate code goes straight to the
built-in fallback generator and performs no provider call; the fallback
returns a success envelope with no provider tag when the selected template
formats cleanly, but its str.format call raises on every template that
contains a literal brace, as at description api with language python, so
the call escapes with an exception there instead of returning the success
envelope the claim promises. -/
theorem c1_no_provider_fallback_crash :
    (∀ d l : String, generateCode POutcome.absent AOutcome.absent d l = fallbackCode d l)
    ∧ fallbackCode "api" "python" = none
    ∧ generateCode POutcome.absent AOutcome.absent "api" "python" = none
    ∧ ∃ env : CodeEnvelope,
        fallbackCode "hello" "python" = some env
        ∧ env.status = "success" ∧ env.provider = none := by
  refine ⟨?_, rfl, rfl, ⟨_, rfl, rfl, rfl⟩⟩
  intro d l
  simp [generateCode]

/-- C2: with at least one provider configured, a provider exception is
never the final outcome: the call escapes with an exception (none) only
when the fallback generator itself raises, an OpenAI failure hands control
to Anthropic when configured and otherwise to the fallback, and a provider
success returns that provider envelope. -/
theorem c2_provider_errors_never_propagate :
    ∀ (o : POutcome) (a : AOutcome) (d l : String),
    ¬(o = POutcome.absent ∧ a = AOutcome.absent) →
      (generateCode o a d l = none → fallbackCode d l = none)
      ∧ (o = POutcome.raises → (a = AOutcome.absent ∨ a = AOutcome.raises) →
          generateCode o a d l = fallbackCode d l)
      ∧ (∀ c, o = POutcome.raises → a = AOutcome.ok c →
          generateCode o a d l = some (anthropicEnvelope l c))
      ∧ (∀ s, o = POutcome.ok s →
          generateCode o a d l =
            some { status := "success", language := l, code := s,
                   provider := some "openai", note := none }) := by
  intro o a d l h
  cases o <;> cases a <;> simp_all [generateCode]

/-- Witness for c2_provider_errors_never_propagate: OpenAI configured and
raising, Anthropic absent, on an input where the fallback itself raises. -/
theorem c2_provider_errors_never_propagate_witness :
    generateCode POutcome.raises AOutcome.absent "x" "javascript" =
      fallbackCode "x" "javascript"
    ∧ generateCode POutcome.raises AOutcome.absent "x" "javascript" = none := by
  have h := (c2_provider_errors_never_propagate POutcome.raises AOutcome.absent
    "x" "javascript" (by simp)).2.1 rfl (Or.inl rfl)
  exact ⟨h, by rfl⟩

/-- C3 counterexample: a prompt containing clone and ssh, the keywords the
specification names as permission triggers, is reported as requiring no
permission, with an empty reason. -/
theorem c3_spec_keywords_counterexample :
    checkPermissions "clone this repo over ssh" = (false, "") := rfl

/-- C3 amended: the permission trigger keywords are exactly disable
safety, turn off ethics and hack; a prompt containing one of them
(case-insensitively) yields true with the reason of the first matching
pair in the fixed order, and a prompt containing none yields false with an
empty reason. -/
theorem c3_permission_keywords_amended :
    ∀ p : String,
      (pyIn "disable safety" (lowerStr p) = true →
        checkPermissions p =
          (true, "disabling all safety features (only applies to critical systems)"))
      ∧ (pyIn "disable safety" (lowerStr p) = false →
         pyIn "turn off ethics" (lowerStr p) = true →
        checkPermissions p =
          (true, "disabling all ethics checks (only applies to critical systems)"))
      ∧ (pyIn "disable safety" (lowerStr p) = false →
         pyIn "turn off ethics" (lowerStr p) = false →
         pyIn "hack" (lowerStr p) = true →
        checkPermissions p =
          (true, "attempting potentially harmful operations on external systems"))
      ∧ (pyIn "disable safety" (lowerStr p) = false →
         pyIn "turn off ethics" (lowerStr p) = false →
         pyIn "hack" (lowerStr p) = false →
        checkPermissions p = (false, "")) := by
  intro p
  refine ⟨?_, ?_, ?_, ?_⟩
  · intro h1
    simp [checkPermissions, firstSensitive, sensitiveOperations, h1]
  · intro h1 h2
    simp [checkPermissions, firstSensitive, sensitiveOperations, h1, h2]
  · intro h1 h2 h3
    simp [checkPermissions, firstSensitive, sensitiveOperations, h1, h2, h3]
  · intro h1 h2 h3
    simp [checkPermissions, firstSensitive, sensitiveOperations, h1, h2, h3]

/-- Witness for c3_permission_keywords_amended on a prompt containing
hack. -/
theorem c3_permission_keywords_amended_witness :
    checkPermissions "please hack the planet" =
      (true, "attempting potentially harmful operations on external systems") :=
  (c3_permission_keywords_amended "please hack the planet").2.2.1 rfl rfl rfl

/-- C4: analyze intent always returns one of the eight labels of the
closed set, respects the fixed priority order with first match winning and
general as default, the question branch also firing on a literal question
mark, and a prompt containing both hello and a question mark classifies as
greeting, not question. -/
theorem c4_intent_closed_set_priority :
    ∀ text : String,
      analyzeIntent text ∈
        (["greeting", "farewell", "question", "coding", "learning", "growth",
          "testing", "general"] : List String)
      ∧ (containsAny greetingKeywords (lowerStr text) = true →
          analyzeIntent text = "greeting")
      ∧ (containsAny greetingKeywords (lowerStr text) = false →
         containsAny farewellKeywords (lowerStr text) = true →
          analyzeIntent text = "farewell")
      ∧ (containsAny greetingKeywords (lowerStr text) = false →
         containsAny farewellKeywords (lowerStr text) = false →
         (pyIn "?" text || containsAny questionKeywords (lowerStr text)) = true →
          analyzeIntent text = "question")
      ∧ (containsAny greetingKeywords (lowerStr text) = false →
         containsAny farewellKeywords (lowerStr text) = false →
         (pyIn "?" text || containsAny questionKeywords (lowerStr text)) = false →
         containsAny codingKeywords (lowerStr text) = true →
          analyzeIntent text = "coding")
      ∧ (containsAny greetingKeywords (lowerStr text) = false →
         containsAny farewellKeywords (lowerStr text) = false →
         (pyIn "?" text || containsAny questionKeywords (lowerStr text)) = false →
         containsAny codingKeywords (lowerStr text) = false →
         containsAny learningKeywords (lowerStr text) = true →
          analyzeIntent text = "learning")
      ∧ (containsAny greetingKeywords (lowerStr text) = false →
         containsAny farewellKeywords (lowerStr text) = false →
         (pyIn "?" text || containsAny questionKeywords (lowerStr text)) = false →
         containsAny codingKeywords (lowerStr text) = false →
         containsAny learningKeywords (lowerStr text) = false →
         containsAny growthKeywords (lowerStr text) = true →
          analyzeIntent text = "growth")
      ∧ (containsAny greetingKeywords (lowerStr text) = false →
         containsAny farewellKeywords (lowerStr text) = false →
         (pyIn "?" text || containsAny questionKeywords (lowerStr text)) = false →
         containsAny codingKeywords (lowerStr text) = false →
         containsAny learningKeywords (lowerStr text) = false →
         containsAny growthKeywords (lowerStr text) = false →
         containsAny testingKeywords (lowerStr text) = true →
          analyzeIntent text = "testing")
      ∧ (containsAny greetingKeywords (lowerStr text) = false →
         containsAny farewellKeywords (lowerStr text) = false →
         (pyIn "?" text || containsAny questionKeywords (lowerStr text)) = false →
         containsAny codingKeywords (lowerStr text) = false →
         containsAny learningKeywords (lowerStr text) = false →
         containsAny growthKeywords (lowerStr text) = false →
         containsAny testingKeywords (lowerStr text) = false →
          analyzeIntent text = "general")
      ∧ analyzeIntent "hello?" = "greeting" := by
  intro text
  refine ⟨?_, ?_, ?_, ?_, ?_, ?_, ?_, ?_, ?_, rfl⟩
  · simp only [analyzeIntent]
    split_ifs <;> simp
  · intro h1
    simp [analyzeIntent, h1]
  · intro h1 h2
    simp [analyzeIntent, h1, h2]
  · intro h1 h2 h3
    simp [analyzeIntent, h1, h2, h3]
  · intro h1 h2 h3 h4
    simp [analyzeIntent, h1, h2, h3, h4]
  · intro h1 h2 h3 h4 h5
    simp [analyzeIntent, h1, h2, h3, h4, h5]
  · intro h1 h2 h3 h4 h5 h6
    simp [analyzeIntent, h1, h2, h3, h4, h5, h6]
  · intro h1 h2 h3 h4 h5 h6 h7
    simp [analyzeIntent, h1, h2, h3, h4, h5, h6, h7]
  · intro h1 h2 h3 h4 h5 h6 h7
    simp [analyzeIntent, h1, h2, h3, h4, h5, h6, h7]

/-- Witness for c4_intent_closed_set_priority: a greeting with a question
mark and a prompt matching nothing. -/
theorem c4_intent_closed_set_priority_witness :
    analyzeIntent "hello?" = "greeting" ∧ analyzeIntent "zzz" = "general" := by
  refine ⟨(c4_intent_closed_set_priority "hello?").2.1 rfl, ?_⟩
  exact (c4_intent_closed_set_priority "zzz").2.2.2.2.2.2.2.2.1
    rfl rfl rfl rfl rfl rfl rfl

/-- C7: the top-level handler of generate response converts an internal
exception with message msg into the envelope whose text is the apology
string embedding msg, and the response pipeline itself always returns an
envelope, of status permission-required or success, never propagating an
exception. -/
theorem c7_internal_error_apology :
    (∀ msg : String,
      handleGenerateResponse (Except.error msg) =
        { text := "I\x27m sorry, I encountered an error: " ++ msg, status := "error",
          model := none, requires_permission := none, permission_reason := none })
    ∧ (∀ (p : String) (hist : List HistEntry) (s : Settings) (k k2 : Nat),
        generateResponse p hist s k k2 =
          handleGenerateResponse (Except.ok (generateResponseTry p hist s k k2))
        ∧ ((generateResponse p hist s k k2).status = "permission_required"
           ∨ (generateResponse p hist s k k2).status = "success")) := by
  refine ⟨fun msg => rfl, fun p hist s k k2 => ⟨rfl, ?_⟩⟩
  simp only [generateResponse, handleGenerateResponse, generateResponseTry]
  split
  · exact Or.inl rfl
  · exact Or.inr rfl

/-- C8: the content filter is idempotent, and in particular filtering the
fixed refusal sentence returns it unchanged. -/
theorem c8_filter_idempotent :
    (∀ t : String, filterUnsafeContent (filterUnsafeContent t) = filterUnsafeContent t)
    ∧ filterUnsafeContent refusalText = refusalText := by
  have hr : unsafeHit refusalText = false := by rfl
  constructor
  · intro t
    cases h : unsafeHit t with
    | false => simp [filterUnsafeContent, h]
    | true => simp [filterUnsafeContent, h, hr]
  · simp [filterUnsafeContent, hr]

theorem choosePool_question : choosePool "question" = pool_question := rfl

/-- C9: for a prompt of question intent, stripping punctuation and
splitting into words, a prompt of more than three words yields the chosen
question template followed by the interpolation of the first three and the
last two (or all, when there are at most two) of the words longer than
three characters, and otherwise the template followed by the fixed shorter
fallback sentence. -/
theorem c9_question_response_shape :
    ∀ (prompt : String) (hist : List HistEntry) (k k2 : Nat),
      (3 < (pySplitWs (stripPunct prompt)).length →
        genTextResponse prompt "question" hist k k2 =
          pick pool_question k ++ "it appears that " ++
          String.intercalate " "
            (((pySplitWs (stripPunct prompt)).filter (fun w => 3 < w.length)).take 3) ++
          " is related to " ++
          String.intercalate " "
            (if 2 < ((pySplitWs (stripPunct prompt)).filter (fun w => 3 < w.length)).length
             then ((pySplitWs (stripPunct prompt)).filter (fun w => 3 < w.length)).drop
                (((pySplitWs (stripPunct prompt)).filter (fun w => 3 < w.length)).length - 2)
             else (pySplitWs (stripPunct prompt)).filter (fun w => 3 < w.length)) ++
          ". Would you like more information on this topic?")
      ∧ (¬ 3 < (pySplitWs (stripPunct prompt)).length →
        genTextResponse prompt "question" hist k k2 =
          pick pool_question k ++ questionNoContext) := by
  intro prompt hist k k2
  constructor <;> intro h <;> simp [genTextResponse, choosePool_question, h]

/-- Witness for c9_question_response_shape on a six-word question. -/
theorem c9_question_response_shape_witness :
    genTextResponse "what is the meaning of life" "question" [] 0 0 =
      "That\x27s an interesting question. From my analysis, it appears that what meaning life is related to meaning life. Would you like more information on this topic?" := by
  have h := (c9_question_response_shape "what is the meaning of life" [] 0 0).1 (by decide)
  exact h.trans (by rfl)

/-- C10: the template responder never consults the conversation history:
with the same prompt, intent and random choices, any two histories give
the same text. -/
theorem c10_history_independent :
    ∀ (prompt intent : String) (h1 h2 : List HistEntry) (k k2 : Nat),
      genTextResponse prompt intent h1 k k2 = genTextResponse prompt intent h2 k k2 :=
  fun _ _ _ _ _ _ => rfl

end Thor
